import Mathlib

/-!
Shallow embedding of the capture-and-persist core of the Visualizer
repository (a screenshot utility), covering the two revisions present in
the sources:

* namespace SM — src/src/screenshot_manager.py (the ScreenshotManager class
  and the module-level capture backends);
* namespace App — src/app.py (the later single-file revision of the same
  class);
* namespaces FlaskSrc and AppFlask — the /screenshot and /metadata route
  handlers of src/src/flask_app.py and src/app.py.

Effects are made explicit: the filesystem is a value (FS), datetime.now()
results are parameters, a capture function ("backend") is a function from
the filesystem to a new filesystem paired with a Python-style result (an
exception, None, or a path), and exception propagation is an Except in the
result type.
-/

/-- Python exception classes relevant to the capture code, collapsed to the
classes named in the handlers (IOError/OSError, mss ScreenShotError,
ValueError, pywinauto ElementNotFoundError, dxcam errors, anything else). -/
inductive PyExn
  | ioError
  | screenShotError
  | valueError
  | elementNotFound
  | dxcamError
  | otherError
deriving DecidableEq

/-- The classes caught by the clause
"except (IOError, mss.exception.ScreenShotError)" in src/app.py
ScreenshotManager.capture_and_save. -/
def caughtByApp : PyExn → Bool
  | .ioError => true
  | .screenShotError => true
  | _ => false

/-- A datetime.datetime value.  The Python datetime type itself guarantees
month in 1..12, day in 1..31, hour < 24, minute < 60, second < 60 and
micro < 10^6; we additionally restrict the year to four digits (datetime
caps it at 9999, and below 1000 the zero padding of %Y is platform
dependent). -/
structure DateTime where
  year : Nat
  month : Nat
  day : Nat
  hour : Nat
  minute : Nat
  second : Nat
  micro : Nat
deriving DecidableEq

/-- Field ranges guaranteed by the Python datetime type (year restricted to
the four-digit range, see DateTime). -/
def DateTime.Valid (t : DateTime) : Prop :=
  1000 ≤ t.year ∧ t.year ≤ 9999 ∧ 1 ≤ t.month ∧ t.month ≤ 12 ∧
    1 ≤ t.day ∧ t.day ≤ 31 ∧ t.hour < 24 ∧ t.minute < 60 ∧ t.second < 60 ∧
    t.micro < 1000000

instance (t : DateTime) : Decidable t.Valid := by
  unfold DateTime.Valid; infer_instance

/-- The second-resolution part of a timestamp; two wall-clock instants at
least one second apart always differ here. -/
def DateTime.secTuple (t : DateTime) : Nat × Nat × Nat × Nat × Nat × Nat :=
  (t.year, t.month, t.day, t.hour, t.minute, t.second)

/-- Two zero-padded decimal digits (the %m, %d, %H, %M, %S directives). -/
def pad2 (n : Nat) : List Char :=
  [Nat.digitChar (n / 10 % 10), Nat.digitChar (n % 10)]

/-- Three zero-padded decimal digits (the milliseconds kept when [:-3] is
applied to a string ending in the six %f digits). -/
def pad3 (n : Nat) : List Char :=
  [Nat.digitChar (n / 100 % 10), Nat.digitChar (n / 10 % 10), Nat.digitChar (n % 10)]

/-- Four zero-padded decimal digits (the %Y directive on four-digit
years). -/
def pad4 (n : Nat) : List Char :=
  [Nat.digitChar (n / 1000 % 10), Nat.digitChar (n / 100 % 10),
    Nat.digitChar (n / 10 % 10), Nat.digitChar (n % 10)]

/-- The format strftime("%Y-%m-%d_%H%M%S") — used both for the returned
timestamp string and for history-mode file names in
src/src/screenshot_manager.py. -/
def fmtTimestampName (t : DateTime) : String :=
  String.mk (pad4 t.year ++ '-' :: pad2 t.month ++ '-' :: pad2 t.day ++
    '_' :: (pad2 t.hour ++ pad2 t.minute ++ pad2 t.second))

/-- The format strftime("%Y-%m-%d %H:%M:%S") — the /metadata timestamp
format of src/app.py. -/
def fmtMetaApp (t : DateTime) : String :=
  String.mk (pad4 t.year ++ '-' :: pad2 t.month ++ '-' :: pad2 t.day ++
    ' ' :: (pad2 t.hour ++ ':' :: pad2 t.minute ++ ':' :: pad2 t.second))

/-- The format strftime("%Y-%m-%d %H:%M:%S.%f")[:-3] — the /metadata
timestamp of src/src/flask_app.py.  The %f directive appends six zero-padded
microsecond digits and [:-3] drops the last three characters, keeping the
three leading microsecond digits, i.e. the zero-padded milliseconds
micro / 1000. -/
def fmtMetaSrc (t : DateTime) : String :=
  fmtMetaApp t ++ "." ++ String.mk (pad3 (t.micro / 1000))

/-- The filesystem, reduced to what the capture code observes: the set of
existing paths (as a duplicate-free list) and the pixel dimensions of the
image stored at each path. -/
structure FS where
  files : List String
  dims : String → Nat × Nat

/-- Models os.path.exists. -/
def FS.existsFile (fs : FS) (p : String) : Bool :=
  fs.files.contains p

/-- Models shutil.copy src dst: dst now exists and holds the image that src
holds; every other path is untouched. -/
def FS.copy (fs : FS) (src dst : String) : FS :=
  { files := fs.files.insert dst
    dims := fun p => if p = dst then fs.dims src else fs.dims p }

/-- A backend writing a fresh image with dimensions d at path p
(mss.tools.to_png with output=p, or img.save(p)). -/
def FS.write (fs : FS) (p : String) (d : Nat × Nat) : FS :=
  { files := fs.files.insert p
    dims := fun q => if q = p then d else fs.dims q }

/-- Models os.path.join(d, f) for a directory d (no trailing separator) and
a relative file name f. -/
def osPathJoin (d f : String) : String :=
  d ++ "/" ++ f

/-- A capture function as passed to capture_and_save: it may modify the
filesystem and then either raise, return None, or return a path. -/
def CaptureFn : Type :=
  FS → FS × Except PyExn (Option String)

/-- The configuration fields of ScreenshotManager, common to both revisions
(src/src/screenshot_manager.py and src/app.py). -/
structure ScreenshotManager where
  reuse_same_image : Bool
  custom_directory : String
  selected_mode : String
  file_name : String
  file_path : String
deriving DecidableEq

namespace SM

/-- The method ScreenshotManager.get_base_filename of
src/src/screenshot_manager.py: keep the alphanumeric characters of the mode
name (no case change) and append ".png".  The per-character Python test
e.isalnum() is modelled by Char.isAlphanum; the mode names in this program
are ASCII. -/
def get_base_filename (selected_mode : String) : String :=
  String.mk (selected_mode.data.filter Char.isAlphanum) ++ ".png"

/-- The method ScreenshotManager.get_unique_filename of
src/src/screenshot_manager.py, with the datetime.now() call made a
parameter. -/
def get_unique_filename (now : DateTime) : String :=
  fmtTimestampName now ++ ".png"

/-- The constructor of ScreenshotManager in src/src/screenshot_manager.py
(the os.makedirs effect is outside the model). -/
def init (reuse_same_image : Bool) (directory : String) (selected_mode : String) :
    ScreenshotManager :=
  let file_name := get_base_filename selected_mode
  { reuse_same_image := reuse_same_image
    custom_directory := directory
    selected_mode := selected_mode
    file_name := file_name
    file_path := osPathJoin directory file_name }

/-- The method ScreenshotManager.capture_and_save of
src/src/screenshot_manager.py.

Explicit effect parameters: primary is the (width, height) of the
sct.grab(sct.monitors[1]) call used to measure dimensions, now is the
datetime.now() producing the returned timestamp string, and nowName is the
separate datetime.now() inside get_unique_filename.  The mss grab and
shutil.copy are modelled as succeeding; were they to raise, the enclosing
"except Exception" would return None exactly as in the capture-function
error branch.  The first component of the result threads self, which the
method never mutates. -/
def capture_and_save (m : ScreenshotManager) (capture_function : CaptureFn)
    (primary : Nat × Nat) (now nowName : DateTime) (fs : FS) :
    ScreenshotManager × FS × Option (String × Nat × Nat × String) :=
  match capture_function fs with
  | (fs', Except.error _) => (m, fs', none)
  | (fs', Except.ok none) => (m, fs', none)
  | (fs', Except.ok (some path)) =>
    let width := primary.1
    let height := primary.2
    let timestamp := fmtTimestampName now
    if m.reuse_same_image then
      (m, fs'.copy path m.file_path, some (m.file_path, width, height, timestamp))
    else
      let unique_filename := get_unique_filename nowName
      let unique_file_path := osPathJoin m.custom_directory unique_filename
      (m, fs'.copy path unique_file_path,
        some (unique_file_path, width, height, timestamp))

/-- The function capture_specific_monitor of src/src/screenshot_manager.py.
Here monitors is the sct.monitors list reported by the provider (entry 0 is
the all-monitors pseudo display), carried as the dimensions of each entry;
the Python index is an Int.  On a valid index the grab is written to
output_path and the path returned; on an invalid one
ValueError("Invalid monitor index.") is raised. -/
def capture_specific_monitor (monitor_index : Int) (output_path : String)
    (monitors : List (Nat × Nat)) (fs : FS) : FS × Except PyExn String :=
  if monitor_index < 1 ∨ monitor_index > (monitors.length : Int) - 1 then
    (fs, Except.error PyExn.valueError)
  else
    (fs.write output_path (monitors.getD monitor_index.toNat (0, 0)),
      Except.ok output_path)

/-- The destination path os.path.join(self.custom_directory,
self.get_unique_filename()) used by history mode. -/
def uniqueFilePath (m : ScreenshotManager) (t : DateTime) : String :=
  osPathJoin m.custom_directory (get_unique_filename t)

/-- A backend that returns the path src and leaves the modelled directory
untouched (its own output lives outside the tracked directory). -/
def stubBackend (src : String) : CaptureFn :=
  fun fs => (fs, Except.ok (some src))

/-- The wiring of the UI layer: the backend writes the canonical file
m.file_path (as a d-sized image) and returns that path. -/
def canonBackend (m : ScreenshotManager) (d : Nat × Nat) : CaptureFn :=
  fun fs => (fs.write m.file_path d, Except.ok (some m.file_path))

/-- One scheduler run: fire capture_and_save once per capture time in ts,
threading the filesystem. -/
def historyRun (m : ScreenshotManager) (src : String) (primary : Nat × Nat)
    (ts : List DateTime) (fs : FS) : FS :=
  match ts with
  | [] => fs
  | t :: rest =>
    historyRun m src primary rest
      (capture_and_save m (stubBackend src) primary t t fs).2.1

end SM

namespace App

/-- The method ScreenshotManager.get_base_filename of src/app.py: keep the
alphanumeric characters, lower-case them (base_name.lower(), modelled per
character), append ".png". -/
def get_base_filename (selected_mode : String) : String :=
  String.mk ((selected_mode.data.filter Char.isAlphanum).map Char.toLower) ++ ".png"

/-- The constructor of ScreenshotManager in src/app.py with an explicit
directory (the None default resolving to the Images subdirectory of the
working directory is an environment effect outside the model). -/
def init (reuse_same_image : Bool) (directory : String) (selected_mode : String) :
    ScreenshotManager :=
  let file_name := get_base_filename selected_mode
  { reuse_same_image := reuse_same_image
    custom_directory := directory
    selected_mode := selected_mode
    file_name := file_name
    file_path := osPathJoin directory file_name }

/-- The method ScreenshotManager.capture_and_save of src/app.py.

When reuse is on and the canonical file exists, the existing path is
returned with zero dimensions, without calling the capture function.
Otherwise the capture function runs and its result — even None — is put
into the returned four-tuple.  Only IOError and the mss ScreenShotError are
caught (returning None); any other exception propagates, which the outer
Except in the result type records.  The first component threads the
unmodified self. -/
def capture_and_save (m : ScreenshotManager) (capture_function : CaptureFn)
    (now : DateTime) (fs : FS) :
    ScreenshotManager × FS ×
      Except PyExn (Option (Option String × Nat × Nat × DateTime)) :=
  if m.reuse_same_image && fs.existsFile m.file_path then
    (m, fs, Except.ok (some (some m.file_path, 0, 0, now)))
  else
    match capture_function fs with
    | (fs', Except.ok result_path) =>
      (m, fs', Except.ok (some (result_path, 0, 0, now)))
    | (fs', Except.error e) =>
      if caughtByApp e then (m, fs', Except.ok none)
      else (m, fs', Except.error e)

end App

/-- HTTP response bodies produced by the modelled routes. -/
inductive HttpBody
  | image (path : String)
  | jsonError (msg : String)
  | meta (timestamp : String) (dimensions : String)
deriving DecidableEq

namespace FlaskSrc

/-- The /screenshot handler of src/src/flask_app.py.  Here readErr is the
message of an exception raised by send_file inside the try block, if any. -/
def get_screenshot (file_path : String) (readErr : Option String) (fs : FS) :
    Nat × HttpBody :=
  if fs.existsFile file_path then
    match readErr with
    | none => (200, HttpBody.image file_path)
    | some e => (500, HttpBody.jsonError e)
  else
    (404, HttpBody.jsonError "No screenshot available.")

/-- The /metadata handler of src/src/flask_app.py.  Here mtime is the value
datetime.fromtimestamp(os.path.getmtime(...)), openErr is the message of an
exception raised by Image.open or the timestamp code, if any, and the image
dimensions are read from the filesystem model. -/
def get_metadata (file_path : String) (mtime : DateTime)
    (openErr : Option String) (fs : FS) : Nat × HttpBody :=
  if fs.existsFile file_path then
    match openErr with
    | some e => (500, HttpBody.jsonError e)
    | none =>
      let wh := fs.dims file_path
      (200, HttpBody.meta (fmtMetaSrc mtime)
        (toString wh.1 ++ "x" ++ toString wh.2))
  else
    (404, HttpBody.jsonError "No screenshot available.")

end FlaskSrc

namespace AppFlask

/-- The /screenshot handler of src/app.py. -/
def get_screenshot (file_path : String) (readErr : Option String) (fs : FS) :
    Nat × HttpBody :=
  if fs.existsFile file_path then
    match readErr with
    | none => (200, HttpBody.image file_path)
    | some e => (500, HttpBody.jsonError e)
  else
    (404, HttpBody.jsonError "No screenshot available.")

/-- The /metadata handler of src/app.py: same structure as the
src/src/flask_app.py one, but the timestamp format has second precision and
the 404 body reads "No metadata available.". -/
def get_metadata (file_path : String) (mtime : DateTime)
    (openErr : Option String) (fs : FS) : Nat × HttpBody :=
  if fs.existsFile file_path then
    match openErr with
    | some e => (500, HttpBody.jsonError e)
    | none =>
      let wh := fs.dims file_path
      (200, HttpBody.meta (fmtMetaApp mtime)
        (toString wh.1 ++ "x" ++ toString wh.2))
  else
    (404, HttpBody.jsonError "No metadata available.")

end AppFlask

/-- Modelled from the spec (§3, §6): the canonical file name is "the mode
with non-alphanumeric characters removed, lower-cased, with a .png
suffix". -/
def spec_canonical_filename (mode : String) : String :=
  String.mk ((mode.data.filter Char.isAlphanum).map Char.toLower) ++ ".png"

/-- Distinct decimal digits render as distinct characters. -/
theorem digitChar_inj {a b : Nat} (ha : a < 10) (hb : b < 10)
    (h : Nat.digitChar a = Nat.digitChar b) : a = b := by
  interval_cases a <;> interval_cases b <;> revert h <;> decide

/-- The file-name timestamp format determines the second-resolution fields
of a valid datetime. -/
theorem fmtTimestampName_inj {t1 t2 : DateTime} (h1 : t1.Valid) (h2 : t2.Valid)
    (h : fmtTimestampName t1 = fmtTimestampName t2) : t1.secTuple = t2.secTuple := by
  obtain ⟨hy1, hy1', hm1, hm1', hd1, hd1', hh1, hmin1, hs1, _⟩ := h1
  obtain ⟨hy2, hy2', hm2, hm2', hd2, hd2', hh2, hmin2, hs2, _⟩ := h2
  unfold fmtTimestampName pad4 pad2 at h
  replace h := congrArg String.data h
  simp only [List.cons_append, List.nil_append, List.cons.injEq, and_true, true_and] at h
  obtain ⟨e1, e2, e3, e4, e5, e6, e7, e8, e9, e10, e11, e12, e13, e14⟩ := h
  have d1 := digitChar_inj (Nat.mod_lt _ (by norm_num)) (Nat.mod_lt _ (by norm_num)) e1
  have d2 := digitChar_inj (Nat.mod_lt _ (by norm_num)) (Nat.mod_lt _ (by norm_num)) e2
  have d3 := digitChar_inj (Nat.mod_lt _ (by norm_num)) (Nat.mod_lt _ (by norm_num)) e3
  have d4 := digitChar_inj (Nat.mod_lt _ (by norm_num)) (Nat.mod_lt _ (by norm_num)) e4
  have d5 := digitChar_inj (Nat.mod_lt _ (by norm_num)) (Nat.mod_lt _ (by norm_num)) e5
  have d6 := digitChar_inj (Nat.mod_lt _ (by norm_num)) (Nat.mod_lt _ (by norm_num)) e6
  have d7 := digitChar_inj (Nat.mod_lt _ (by norm_num)) (Nat.mod_lt _ (by norm_num)) e7
  have d8 := digitChar_inj (Nat.mod_lt _ (by norm_num)) (Nat.mod_lt _ (by norm_num)) e8
  have d9 := digitChar_inj (Nat.mod_lt _ (by norm_num)) (Nat.mod_lt _ (by norm_num)) e9
  have d10 := digitChar_inj (Nat.mod_lt _ (by norm_num)) (Nat.mod_lt _ (by norm_num)) e10
  have d11 := digitChar_inj (Nat.mod_lt _ (by norm_num)) (Nat.mod_lt _ (by norm_num)) e11
  have d12 := digitChar_inj (Nat.mod_lt _ (by norm_num)) (Nat.mod_lt _ (by norm_num)) e12
  have d13 := digitChar_inj (Nat.mod_lt _ (by norm_num)) (Nat.mod_lt _ (by norm_num)) e13
  have d14 := digitChar_inj (Nat.mod_lt _ (by norm_num)) (Nat.mod_lt _ (by norm_num)) e14
  unfold DateTime.secTuple
  simp only [Prod.mk.injEq]
  refine ⟨?_, ?_, ?_, ?_, ?_, ?_⟩ <;> omega

/-- The history-mode destination path determines the second-resolution
fields of a valid capture time. -/
theorem SM.uniqueFilePath_inj {m : ScreenshotManager} {t1 t2 : DateTime}
    (h1 : t1.Valid) (h2 : t2.Valid)
    (h : SM.uniqueFilePath m t1 = SM.uniqueFilePath m t2) :
    t1.secTuple = t2.secTuple := by
  apply fmtTimestampName_inj h1 h2
  unfold SM.uniqueFilePath osPathJoin SM.get_unique_filename at h
  replace h := congrArg String.data h
  simp only [String.data_append] at h
  replace h := List.append_cancel_right (List.append_cancel_left h)
  exact String.ext h

/-- One history-mode capture with the stub backend: the grabbed image is
copied to the timestamped destination and that destination is returned. -/
theorem SM.capture_and_save_history_step (m : ScreenshotManager) (src : String)
    (primary : Nat × Nat) (t : DateTime) (fs : FS)
    (hmode : m.reuse_same_image = false) :
    SM.capture_and_save m (SM.stubBackend src) primary t t fs =
      (m, fs.copy src (SM.uniqueFilePath m t),
        some (SM.uniqueFilePath m t, primary.1, primary.2, fmtTimestampName t)) := by
  simp [SM.capture_and_save, SM.stubBackend, hmode, SM.uniqueFilePath,
    SM.get_unique_filename]

/-- A run of history-mode captures at fresh, pairwise-distinct capture
times adds exactly one file per capture. -/
theorem SM.historyRun_files_length (m : ScreenshotManager) (src : String)
    (primary : Nat × Nat) (ts : List DateTime) (fs : FS)
    (hmode : m.reuse_same_image = false)
    (hvalid : ∀ t ∈ ts, t.Valid)
    (hdist : ts.Pairwise (fun a b => a.secTuple ≠ b.secTuple))
    (hfresh : ∀ t ∈ ts, SM.uniqueFilePath m t ∉ fs.files) :
    (SM.historyRun m src primary ts fs).files.length = fs.files.length + ts.length := by
  induction ts generalizing fs with
  | nil => simp [SM.historyRun]
  | cons t rest ih =>
    rw [SM.historyRun, SM.capture_and_save_history_step m src primary t fs hmode]
    have hnotmem : SM.uniqueFilePath m t ∉ fs.files := hfresh t (by simp)
    have hvt : t.Valid := hvalid t (by simp)
    have hstep : (fs.copy src (SM.uniqueFilePath m t)).files =
        SM.uniqueFilePath m t :: fs.files := by
      simp [FS.copy, List.insert_of_not_mem hnotmem]
    have hlen := ih (fs.copy src (SM.uniqueFilePath m t))
      (fun t' ht' => hvalid t' (by simp [ht']))
      (List.Pairwise.of_cons hdist)
      (by
        intro t' ht'
        rw [hstep]
        intro hmem
        rcases List.mem_cons.mp hmem with hc | hc
        · exact (List.pairwise_cons.mp hdist).1 t' ht'
            (SM.uniqueFilePath_inj hvt (hvalid t' (by simp [ht'])) hc.symm)
        · exact hfresh t' (by simp [ht']) hc)
    rw [hlen, hstep]
    simp [Nat.add_assoc, Nat.add_comm 1 rest.length]

/-- C1 (behaviour at the failing input): in the app.py revision, a capture
function that returns None without raising makes capture_and_save return
the truthy, partially populated tuple (None, 0, 0, now) instead of the None
sentinel; the src/src revision returns None (and writes nothing), as the
claim and the app.py docstring ("tuple ... if successful, else None")
state. -/
theorem C1_none_result_eval :
    (App.capture_and_save (App.init false "Images" "Full Screen")
        (fun fs => (fs, Except.ok none)) ⟨2024, 1, 2, 3, 4, 5, 0⟩
        ⟨[], fun _ => (0, 0)⟩).2.2 =
      Except.ok (some (none, 0, 0, ⟨2024, 1, 2, 3, 4, 5, 0⟩))
    ∧ (SM.capture_and_save (SM.init false "Images" "Full Screen")
        (fun fs => (fs, Except.ok none)) (1920, 1080)
        ⟨2024, 1, 2, 3, 4, 5, 0⟩ ⟨2024, 1, 2, 3, 4, 5, 0⟩
        ⟨[], fun _ => (0, 0)⟩).2.2 = none
    ∧ (SM.capture_and_save (SM.init false "Images" "Full Screen")
        (fun fs => (fs, Except.ok none)) (1920, 1080)
        ⟨2024, 1, 2, 3, 4, 5, 0⟩ ⟨2024, 1, 2, 3, 4, 5, 0⟩
        ⟨[], fun _ => (0, 0)⟩).2.1.files = [] := by
  refine ⟨rfl, rfl, rfl⟩

/-- C2: under reuse-single-file mode, every successful capture_and_save
returns the canonical file_path of the manager (src/src revision for any
backend; app.py revision for backends returning the canonical path, which
is how every call site invokes it), and a repeated successful capture
leaves the set of files unchanged. -/
theorem C2_reuse_idempotence :
    (∀ (m : ScreenshotManager) (cf : CaptureFn) (primary : Nat × Nat)
        (now nowName : DateTime) (fs : FS) (p : String) (w h : Nat) (ts : String),
        m.reuse_same_image = true →
        (SM.capture_and_save m cf primary now nowName fs).2.2 = some (p, w, h, ts) →
        p = m.file_path)
    ∧ (∀ (m : ScreenshotManager) (d : Nat × Nat) (primary : Nat × Nat)
        (now nowName : DateTime) (fs : FS),
        m.reuse_same_image = true →
        ((SM.capture_and_save m (SM.canonBackend m d) primary now nowName
            ((SM.capture_and_save m (SM.canonBackend m d) primary now nowName
              fs).2.1)).2.1).files =
          ((SM.capture_and_save m (SM.canonBackend m d) primary now nowName
            fs).2.1).files)
    ∧ (∀ (m : ScreenshotManager) (cf : CaptureFn) (now : DateTime) (fs : FS),
        m.reuse_same_image = true →
        (cf fs).2 = Except.ok (some m.file_path) →
        (App.capture_and_save m cf now fs).2.2 =
          Except.ok (some (some m.file_path, 0, 0, now))) := by
  refine ⟨?_, ?_, ?_⟩
  · intro m cf primary now nowName fs p w h ts hmode hres
    rcases hcf : cf fs with ⟨fs2, r⟩
    rcases r with e | po
    · simp [SM.capture_and_save, hcf] at hres
    · rcases po with _ | path
      · simp [SM.capture_and_save, hcf] at hres
      · simp [SM.capture_and_save, hcf, hmode] at hres
        exact hres.1.symm
  · intro m d primary now nowName fs hmode
    simp [SM.capture_and_save, SM.canonBackend, hmode, FS.copy, FS.write,
      List.insert_of_mem (List.mem_insert_self _ _)]
  · intro m cf now fs hmode hcfres
    by_cases hex : fs.existsFile m.file_path
    · simp [App.capture_and_save, hmode, hex]
    · rcases hcf : cf fs with ⟨fs2, r⟩
      rw [hcf] at hcfres
      simp at hcfres
      subst hcfres
      simp [App.capture_and_save, hmode, hex, hcf]

/-- C2 witness: a concrete reuse-mode capture returns the canonical path, a
repeated capture leaves the file set unchanged, and the app.py revision
also returns the canonical path. -/
theorem C2_reuse_idempotence_witness :
    "Images/FullScreen.png" = (SM.init true "Images" "Full Screen").file_path
    ∧ ((SM.capture_and_save (SM.init true "Images" "Full Screen")
        (SM.canonBackend (SM.init true "Images" "Full Screen") (10, 10))
        (1920, 1080) ⟨2024, 1, 2, 3, 4, 5, 0⟩ ⟨2024, 1, 2, 3, 4, 5, 0⟩
        ((SM.capture_and_save (SM.init true "Images" "Full Screen")
          (SM.canonBackend (SM.init true "Images" "Full Screen") (10, 10))
          (1920, 1080) ⟨2024, 1, 2, 3, 4, 5, 0⟩ ⟨2024, 1, 2, 3, 4, 5, 0⟩
          ⟨[], fun _ => (0, 0)⟩).2.1)).2.1).files =
      ((SM.capture_and_save (SM.init true "Images" "Full Screen")
        (SM.canonBackend (SM.init true "Images" "Full Screen") (10, 10))
        (1920, 1080) ⟨2024, 1, 2, 3, 4, 5, 0⟩ ⟨2024, 1, 2, 3, 4, 5, 0⟩
        ⟨[], fun _ => (0, 0)⟩).2.1).files
    ∧ (App.capture_and_save (App.init true "Images" "Full Screen")
        (SM.canonBackend (App.init true "Images" "Full Screen") (10, 10))
        ⟨2024, 1, 2, 3, 4, 5, 0⟩ ⟨[], fun _ => (0, 0)⟩).2.2 =
      Except.ok (some (some (App.init true "Images" "Full Screen").file_path, 0, 0,
        ⟨2024, 1, 2, 3, 4, 5, 0⟩)) := by
  refine ⟨?_, ?_, ?_⟩
  · have h := C2_reuse_idempotence.1 (SM.init true "Images" "Full Screen")
      (SM.canonBackend (SM.init true "Images" "Full Screen") (10, 10))
      (1920, 1080) ⟨2024, 1, 2, 3, 4, 5, 0⟩ ⟨2024, 1, 2, 3, 4, 5, 0⟩
      ⟨[], fun _ => (0, 0)⟩ "Images/FullScreen.png" 1920 1080 "2024-01-02_030405"
      rfl (by decide)
    exact h
  · exact C2_reuse_idempotence.2.1 (SM.init true "Images" "Full Screen") (10, 10)
      (1920, 1080) ⟨2024, 1, 2, 3, 4, 5, 0⟩ ⟨2024, 1, 2, 3, 4, 5, 0⟩
      ⟨[], fun _ => (0, 0)⟩ rfl
  · exact C2_reuse_idempotence.2.2 (App.init true "Images" "Full Screen")
      (SM.canonBackend (App.init true "Images" "Full Screen") (10, 10))
      ⟨2024, 1, 2, 3, 4, 5, 0⟩ ⟨[], fun _ => (0, 0)⟩ rfl rfl

/-- C3 counterexample: in the src/src revision, get_base_filename does not
lower-case, so mode "Full Screen" yields "FullScreen.png", not the
"fullscreen.png" the claim derives. -/
theorem C3_counterexample :
    SM.get_base_filename "Full Screen" = "FullScreen.png"
    ∧ SM.get_base_filename "Full Screen" ≠ spec_canonical_filename "Full Screen"
    ∧ spec_canonical_filename "Full Screen" = "fullscreen.png" := by
  decide

/-- C3 amended: in the app.py revision, get_base_filename is exactly the
claimed name (alphanumeric-filtered, lower-cased, ".png" suffix, so
"Full Screen" yields "fullscreen.png"); the src/src revision only filters,
keeping case ("Full Screen" yields "FullScreen.png"). -/
theorem C3_base_filename_amended :
    (∀ mode : String, App.get_base_filename mode = spec_canonical_filename mode)
    ∧ App.get_base_filename "Full Screen" = "fullscreen.png"
    ∧ SM.get_base_filename "Full Screen" = "FullScreen.png" := by
  refine ⟨fun mode => rfl, by decide, by decide⟩

/-- C4: capture_specific_monitor raises ValueError ("Invalid monitor
index.") for index 0 and for every index at or beyond the length of the
provider sct.monitors list, and succeeds (returning the output path, with
the grab written) for every index in [1, count-1]. -/
theorem C4_monitor_bounds (idx : Int) (output_path : String)
    (monitors : List (Nat × Nat)) (fs : FS) :
    ((idx = 0 ∨ (monitors.length : Int) ≤ idx) →
      (SM.capture_specific_monitor idx output_path monitors fs).2 =
        Except.error PyExn.valueError)
    ∧ ((1 ≤ idx ∧ idx ≤ (monitors.length : Int) - 1) →
      (SM.capture_specific_monitor idx output_path monitors fs).2 =
        Except.ok output_path) := by
  constructor
  · intro hbad
    have : idx < 1 ∨ idx > (monitors.length : Int) - 1 := by omega
    simp [SM.capture_specific_monitor, this]
  · intro hgood
    have : ¬(idx < 1 ∨ idx > (monitors.length : Int) - 1) := by omega
    simp [SM.capture_specific_monitor, this]

/-- C4 witness: with three reported entries (the all-monitors pseudo entry
and two real ones), index 0 and index 3 raise while index 2 succeeds. -/
theorem C4_monitor_bounds_witness :
    (SM.capture_specific_monitor 0 "m.png" [(3840, 1080), (1920, 1080), (1920, 1080)]
        ⟨[], fun _ => (0, 0)⟩).2 = Except.error PyExn.valueError
    ∧ (SM.capture_specific_monitor 3 "m.png" [(3840, 1080), (1920, 1080), (1920, 1080)]
        ⟨[], fun _ => (0, 0)⟩).2 = Except.error PyExn.valueError
    ∧ (SM.capture_specific_monitor 2 "m.png" [(3840, 1080), (1920, 1080), (1920, 1080)]
        ⟨[], fun _ => (0, 0)⟩).2 = Except.ok "m.png" := by
  refine ⟨(C4_monitor_bounds 0 "m.png" _ _).1 (by decide),
    (C4_monitor_bounds 3 "m.png" _ _).1 (by decide),
    (C4_monitor_bounds 2 "m.png" _ _).2 (by decide)⟩

/-- C5: under timestamped-history mode, each successful capture is saved at
the path joined from the directory and the "%Y-%m-%d_%H%M%S".png name of
its capture time; captures with pairwise distinct second-resolution
timestamps (in particular, captures at least one second apart) yield
pairwise distinct paths, and starting from an empty directory, N such
captures leave exactly N files in it. -/
theorem C5_history_uniqueness (m : ScreenshotManager) (src : String)
    (primary : Nat × Nat) (ts : List DateTime) (fs0 : FS)
    (hmode : m.reuse_same_image = false)
    (hempty : fs0.files = [])
    (hvalid : ∀ t ∈ ts, t.Valid)
    (hdist : ts.Pairwise (fun a b => a.secTuple ≠ b.secTuple)) :
    (∀ t, SM.uniqueFilePath m t =
      osPathJoin m.custom_directory (fmtTimestampName t ++ ".png"))
    ∧ (∀ t ∈ ts, ∀ fs : FS,
        SM.capture_and_save m (SM.stubBackend src) primary t t fs =
          (m, fs.copy src (SM.uniqueFilePath m t),
            some (SM.uniqueFilePath m t, primary.1, primary.2, fmtTimestampName t)))
    ∧ ts.Pairwise (fun a b => SM.uniqueFilePath m a ≠ SM.uniqueFilePath m b)
    ∧ (SM.historyRun m src primary ts fs0).files.length = ts.length := by
  refine ⟨fun t => rfl,
    fun t ht fs => SM.capture_and_save_history_step m src primary t fs hmode, ?_, ?_⟩
  · refine List.Pairwise.imp_of_mem ?_ hdist
    intro a b ha hb hne heq
    exact hne (SM.uniqueFilePath_inj (hvalid a ha) (hvalid b hb) heq)
  · rw [SM.historyRun_files_length m src primary ts fs0 hmode hvalid hdist
      (by simp [hempty]), hempty]
    simp

/-- C5 witness: two captures one second apart, starting from an empty
directory, leave exactly two files. -/
theorem C5_history_uniqueness_witness :
    (SM.historyRun (SM.init false "Images" "Full Screen") "scratch.png" (1920, 1080)
      [⟨2024, 1, 2, 3, 4, 5, 0⟩, ⟨2024, 1, 2, 3, 4, 6, 0⟩]
      ⟨[], fun _ => (0, 0)⟩).files.length = 2 := by
  have h := C5_history_uniqueness (SM.init false "Images" "Full Screen") "scratch.png"
    (1920, 1080) [⟨2024, 1, 2, 3, 4, 5, 0⟩, ⟨2024, 1, 2, 3, 4, 6, 0⟩]
    ⟨[], fun _ => (0, 0)⟩ rfl rfl (by decide) (by decide)
  exact h.2.2.2

/-- C6 counterexample: in the app.py revision a ValueError raised inside the
capture function (e.g. the invalid-monitor-index error) is not caught by
the clause "except (IOError, mss.exception.ScreenShotError)" and propagates
out of capture_and_save, so not every backend-level failure is converted
into the no-outcome result. -/
theorem C6_counterexample :
    (App.capture_and_save (App.init false "Images" "Full Screen")
        (fun fs => (fs, Except.error PyExn.valueError)) ⟨2024, 1, 2, 3, 4, 5, 0⟩
        ⟨[], fun _ => (0, 0)⟩).2.2 = Except.error PyExn.valueError := by
  rfl

/-- C6 amended: in the src/src revision the clause "except Exception"
converts every exception raised by the capture function into None; the
app.py revision does so exactly for IOError and the mss ScreenShotError,
and re-raises every other exception out of capture_and_save. -/
theorem C6_exception_boundary_amended :
    (∀ (m : ScreenshotManager) (cf : CaptureFn) (primary : Nat × Nat)
        (now nowName : DateTime) (fs fs' : FS) (e : PyExn),
        cf fs = (fs', Except.error e) →
        SM.capture_and_save m cf primary now nowName fs = (m, fs', none))
    ∧ (∀ (m : ScreenshotManager) (cf : CaptureFn) (now : DateTime)
        (fs fs' : FS) (e : PyExn),
        (m.reuse_same_image && fs.existsFile m.file_path) = false →
        cf fs = (fs', Except.error e) → caughtByApp e = true →
        App.capture_and_save m cf now fs = (m, fs', Except.ok none))
    ∧ (∀ (m : ScreenshotManager) (cf : CaptureFn) (now : DateTime)
        (fs fs' : FS) (e : PyExn),
        (m.reuse_same_image && fs.existsFile m.file_path) = false →
        cf fs = (fs', Except.error e) → caughtByApp e = false →
        App.capture_and_save m cf now fs = (m, fs', Except.error e)) := by
  refine ⟨?_, ?_, ?_⟩
  · intro m cf primary now nowName fs fs' e hcf
    simp [SM.capture_and_save, hcf]
  · intro m cf now fs fs' e hex hcf hc
    simp [App.capture_and_save, hex, hcf, hc]
  · intro m cf now fs fs' e hex hcf hc
    simp [App.capture_and_save, hex, hcf, hc]

/-- C6 witness: a caught IOError yields None in both revisions, while an
uncaught pywinauto error propagates in the app.py revision. -/
theorem C6_exception_boundary_witness :
    SM.capture_and_save (SM.init false "Images" "Full Screen")
        (fun fs => (fs, Except.error PyExn.ioError)) (1920, 1080)
        ⟨2024, 1, 2, 3, 4, 5, 0⟩ ⟨2024, 1, 2, 3, 4, 5, 0⟩ ⟨[], fun _ => (0, 0)⟩ =
      (SM.init false "Images" "Full Screen", ⟨[], fun _ => (0, 0)⟩, none)
    ∧ App.capture_and_save (App.init false "Images" "Full Screen")
        (fun fs => (fs, Except.error PyExn.ioError)) ⟨2024, 1, 2, 3, 4, 5, 0⟩
        ⟨[], fun _ => (0, 0)⟩ =
      (App.init false "Images" "Full Screen", ⟨[], fun _ => (0, 0)⟩, Except.ok none)
    ∧ App.capture_and_save (App.init false "Images" "Full Screen")
        (fun fs => (fs, Except.error PyExn.elementNotFound)) ⟨2024, 1, 2, 3, 4, 5, 0⟩
        ⟨[], fun _ => (0, 0)⟩ =
      (App.init false "Images" "Full Screen", ⟨[], fun _ => (0, 0)⟩,
        Except.error PyExn.elementNotFound) := by
  refine ⟨C6_exception_boundary_amended.1 _ _ _ _ _ _ _ _ rfl,
    C6_exception_boundary_amended.2.1 _ _ _ _ _ _ (by decide) rfl rfl,
    C6_exception_boundary_amended.2.2 _ _ _ _ _ _ (by decide) rfl rfl⟩

/-- C7 counterexample: with the canonical file absent, the /metadata handler
of the app.py revision answers 404 with body
element "error": "No metadata available.", not the claimed
"No screenshot available.". -/
theorem C7_counterexample :
    AppFlask.get_metadata "Images/fullscreen.png" ⟨2024, 1, 2, 3, 4, 5, 0⟩ none
        ⟨[], fun _ => (0, 0)⟩ =
      (404, HttpBody.jsonError "No metadata available.")
    ∧ "No metadata available." ≠ "No screenshot available." := by
  refine ⟨rfl, by decide⟩

/-- C7 amended: with the canonical file absent, /screenshot and /metadata
answer 404 in both revisions; the /screenshot body is
"No screenshot available." in both, and the /metadata body is
"No screenshot available." in src/src/flask_app.py but
"No metadata available." in app.py. -/
theorem C7_http_absence_amended (fp : String) (mtime : DateTime)
    (readErr openErr : Option String) (fs : FS)
    (habsent : fs.existsFile fp = false) :
    FlaskSrc.get_screenshot fp readErr fs =
      (404, HttpBody.jsonError "No screenshot available.")
    ∧ FlaskSrc.get_metadata fp mtime openErr fs =
      (404, HttpBody.jsonError "No screenshot available.")
    ∧ AppFlask.get_screenshot fp readErr fs =
      (404, HttpBody.jsonError "No screenshot available.")
    ∧ AppFlask.get_metadata fp mtime openErr fs =
      (404, HttpBody.jsonError "No metadata available.") := by
  simp [FlaskSrc.get_screenshot, FlaskSrc.get_metadata, AppFlask.get_screenshot,
    AppFlask.get_metadata, habsent]

/-- C7 witness: the amended statement at an empty directory. -/
theorem C7_http_absence_witness :
    FlaskSrc.get_screenshot "Images/fullscreen.png" none ⟨[], fun _ => (0, 0)⟩ =
      (404, HttpBody.jsonError "No screenshot available.")
    ∧ FlaskSrc.get_metadata "Images/fullscreen.png" ⟨2024, 1, 2, 3, 4, 5, 0⟩ none
        ⟨[], fun _ => (0, 0)⟩ =
      (404, HttpBody.jsonError "No screenshot available.")
    ∧ AppFlask.get_screenshot "Images/fullscreen.png" none ⟨[], fun _ => (0, 0)⟩ =
      (404, HttpBody.jsonError "No screenshot available.")
    ∧ AppFlask.get_metadata "Images/fullscreen.png" ⟨2024, 1, 2, 3, 4, 5, 0⟩ none
        ⟨[], fun _ => (0, 0)⟩ =
      (404, HttpBody.jsonError "No metadata available.") :=
  C7_http_absence_amended "Images/fullscreen.png" ⟨2024, 1, 2, 3, 4, 5, 0⟩ none none
    ⟨[], fun _ => (0, 0)⟩ (by decide)

/-- C8 counterexample: the /metadata handler of src/src/flask_app.py
formats the last-modified time with a millisecond suffix (the format
"%Y-%m-%d %H:%M:%S.%f" sliced by [:-3]), so its timestamp field is not the
claimed exact second-precision YYYY-MM-DD HH:MM:SS form. -/
theorem C8_counterexample :
    FlaskSrc.get_metadata "Images/fullscreen.png" ⟨2024, 1, 2, 3, 4, 5, 678901⟩ none
        ⟨["Images/fullscreen.png"], fun _ => (10, 10)⟩ =
      (200, HttpBody.meta "2024-01-02 03:04:05.678" "10x10")
    ∧ fmtMetaApp ⟨2024, 1, 2, 3, 4, 5, 678901⟩ = "2024-01-02 03:04:05"
    ∧ "2024-01-02 03:04:05.678" ≠ "2024-01-02 03:04:05" := by
  refine ⟨by decide, by decide, by decide⟩

/-- C8 amended: when the canonical file exists and is readable, both
revisions answer 200 with dimensions "width x height" (no spaces); the
app.py timestamp is the last-modified time at second precision
(YYYY-MM-DD HH:MM:SS), while the src/src/flask_app.py timestamp is that
same string extended with "." and the zero-padded milliseconds. -/
theorem C8_metadata_amended (fp : String) (mtime : DateTime) (fs : FS)
    (hexists : fs.existsFile fp = true) :
    AppFlask.get_metadata fp mtime none fs =
      (200, HttpBody.meta (fmtMetaApp mtime)
        (toString (fs.dims fp).1 ++ "x" ++ toString (fs.dims fp).2))
    ∧ FlaskSrc.get_metadata fp mtime none fs =
      (200, HttpBody.meta
        (fmtMetaApp mtime ++ "." ++ String.mk (pad3 (mtime.micro / 1000)))
        (toString (fs.dims fp).1 ++ "x" ++ toString (fs.dims fp).2)) := by
  simp [AppFlask.get_metadata, FlaskSrc.get_metadata, hexists, fmtMetaSrc]

/-- C8 witness: the amended statement at a 10 by 10 canonical file. -/
theorem C8_metadata_witness :
    AppFlask.get_metadata "Images/fullscreen.png" ⟨2024, 1, 2, 3, 4, 5, 678901⟩ none
        ⟨["Images/fullscreen.png"], fun _ => (10, 10)⟩ =
      (200, HttpBody.meta "2024-01-02 03:04:05" "10x10") := by
  have h := (C8_metadata_amended "Images/fullscreen.png" ⟨2024, 1, 2, 3, 4, 5, 678901⟩
    ⟨["Images/fullscreen.png"], fun _ => (10, 10)⟩ (by decide)).1
  rw [h]
  decide

/-- C9 counterexample: in the src/src revision, the outcome dimensions are
those of a fresh primary-monitor grab, not of the captured image file: a
capture of a 10 by 10 image is reported as 1920 by 1080 when the primary
monitor has that size. -/
theorem C9_counterexample :
    (SM.capture_and_save (SM.init true "Images" "Full Screen")
        (SM.stubBackend "scratch.png") (1920, 1080)
        ⟨2024, 1, 2, 3, 4, 5, 0⟩ ⟨2024, 1, 2, 3, 4, 5, 0⟩
        ⟨["scratch.png"], fun _ => (10, 10)⟩).2.2 =
      some ("Images/FullScreen.png", 1920, 1080, "2024-01-02_030405")
    ∧ (SM.capture_and_save (SM.init true "Images" "Full Screen")
        (SM.stubBackend "scratch.png") (1920, 1080)
        ⟨2024, 1, 2, 3, 4, 5, 0⟩ ⟨2024, 1, 2, 3, 4, 5, 0⟩
        ⟨["scratch.png"], fun _ => (10, 10)⟩).2.1.dims "Images/FullScreen.png" =
      (10, 10)
    ∧ (1920, 1080) ≠ ((10 : Nat), (10 : Nat)) := by
  refine ⟨by decide, by decide, by decide⟩

/-- C9 amended: the app.py revision always reports dimensions 0 by 0 in the
outcome, and the src/src revision always reports the dimensions of the
primary-monitor grab — in neither revision are they read from the captured
file. -/
theorem C9_dimensions_amended :
    (∀ (m : ScreenshotManager) (cf : CaptureFn) (now : DateTime) (fs : FS)
        (p : Option String) (w h : Nat) (t' : DateTime),
        (App.capture_and_save m cf now fs).2.2 = Except.ok (some (p, w, h, t')) →
        w = 0 ∧ h = 0)
    ∧ (∀ (m : ScreenshotManager) (cf : CaptureFn) (primary : Nat × Nat)
        (now nowName : DateTime) (fs : FS) (p : String) (w h : Nat) (ts : String),
        (SM.capture_and_save m cf primary now nowName fs).2.2 = some (p, w, h, ts) →
        (w, h) = primary) := by
  constructor
  · intro m cf now fs p w h t' hres
    by_cases hex : m.reuse_same_image && fs.existsFile m.file_path
    · simp [App.capture_and_save, hex] at hres
      exact ⟨hres.2.1.symm, hres.2.2.1.symm⟩
    · rcases hcf : cf fs with ⟨fs2, r⟩
      rcases r with e | po
      · by_cases hc : caughtByApp e <;> simp [App.capture_and_save, hex, hcf, hc] at hres
      · simp [App.capture_and_save, hex, hcf] at hres
        exact ⟨hres.2.1.symm, hres.2.2.1.symm⟩
  · intro m cf primary now nowName fs p w h ts hres
    rcases hcf : cf fs with ⟨fs2, r⟩
    rcases r with e | po
    · simp [SM.capture_and_save, hcf] at hres
    · rcases po with _ | path
      · simp [SM.capture_and_save, hcf] at hres
      · by_cases hmode : m.reuse_same_image <;>
          simp [SM.capture_and_save, hcf, hmode] at hres
        · exact Prod.ext hres.2.1.symm hres.2.2.1.symm
        · exact Prod.ext hres.2.1.symm hres.2.2.1.symm

/-- C9 witness: the amended statement at concrete captures in both
revisions. -/
theorem C9_dimensions_witness :
    ((0 : Nat) = 0 ∧ (0 : Nat) = 0) ∧ ((1920 : Nat), (1080 : Nat)) = (1920, 1080) :=
  ⟨C9_dimensions_amended.1 (App.init true "Images" "Full Screen")
      (SM.stubBackend "scratch.png") ⟨2024, 1, 2, 3, 4, 5, 0⟩
      ⟨["Images/fullscreen.png"], fun _ => (10, 10)⟩
      (some "Images/fullscreen.png") 0 0 ⟨2024, 1, 2, 3, 4, 5, 0⟩ rfl,
    C9_dimensions_amended.2 (SM.init true "Images" "Full Screen")
      (SM.stubBackend "scratch.png") (1920, 1080)
      ⟨2024, 1, 2, 3, 4, 5, 0⟩ ⟨2024, 1, 2, 3, 4, 5, 0⟩
      ⟨["scratch.png"], fun _ => (10, 10)⟩
      "Images/FullScreen.png" 1920 1080 "2024-01-02_030405" (by decide)⟩

/-- C10: in both revisions capture_and_save never mutates self: the
threaded manager — hence each of its fields reuse_same_image,
custom_directory, selected_mode, file_name, file_path — is returned
unchanged, on success and on failure alike. -/
theorem C10_config_frame (m m' : ScreenshotManager) (cf cf' : CaptureFn)
    (primary : Nat × Nat) (now nowName now' : DateTime) (fs fs' : FS) :
    (SM.capture_and_save m cf primary now nowName fs).1 = m
    ∧ (App.capture_and_save m' cf' now' fs').1 = m' := by
  constructor
  · rcases hcf : cf fs with ⟨fs2, r⟩
    rcases r with e | po
    · simp [SM.capture_and_save, hcf]
    · rcases po with _ | path
      · simp [SM.capture_and_save, hcf]
      · by_cases hmode : m.reuse_same_image <;> simp [SM.capture_and_save, hcf, hmode]
  · by_cases hex : m'.reuse_same_image && fs'.existsFile m'.file_path
    · simp [App.capture_and_save, hex]
    · rcases hcf : cf' fs' with ⟨fs2, r⟩
      rcases r with e | po
      · by_cases hc : caughtByApp e <;> simp [App.capture_and_save, hex, hcf, hc]
      · simp [App.capture_and_save, hex, hcf]
